import Mathlib

/-!
Shallow embedding of the `airthings-api` client.

The embedding follows the latest variant of the `AirThingsApi` class
(src/unnamed/part_001, the fetch-based implementation with query parameters
and location endpoints); the older axios-based variant of `getDeviceSamples`
(src/src/index.ts, second document, lines 337-356) is embedded separately
where a claim compares the two.

Modelling conventions:
- JavaScript time instants (`Date.now()`, `expiresAt`) are `Int`; a number
  that may be `NaN` (such as `undefined + Date.now()`) is `JsNum`.
- HTTP response bodies are modelled at the JSON level: `bodyJson = some j`
  when the body text parses as JSON `j`, `none` when `JSON.parse` /
  `res.json()` would throw.
- `fetch` either rejects (transport failure) or resolves with a response of
  any status; the fetch API never rejects on a non-2xx status, and the source
  never inspects `res.status` or `res.ok`.
- Each method is a function of the client state, the current time, and the
  fetch outcomes the network would supply; it returns the trace of emitted
  events, the final state, and either the JS return value or the thrown error.
-/

/-- JSON values, used for HTTP request and response bodies. -/
inductive Json where
  | null
  | bool (b : Bool)
  | num (n : Int)
  | str (s : String)
  | arr (elems : List Json)
  | obj (fields : List (String × Json))

/-- JavaScript property access `j.key`: `none` models `undefined`
(missing key, or access on a non-object). -/
def Json.get (j : Json) (key : String) : Option Json :=
  match j with
  | .obj fields => fields.lookup key
  | _ => none

/-- Reads a string-valued field; `none` models `undefined` (or a
non-string value, which the source never encounters). -/
def Json.getStr (j : Json) (key : String) : Option String :=
  match j.get key with
  | some (.str s) => some s
  | _ => none

/-- Reads a number-valued field; `none` models `undefined`. -/
def Json.getNum (j : Json) (key : String) : Option Int :=
  match j.get key with
  | some (.num n) => some n
  | _ => none

/-- A JavaScript number that may be `NaN` (e.g. `undefined + Date.now()`). -/
inductive JsNum where
  | nan
  | num (n : Int)
deriving DecidableEq

/-- Interface `AirThingsConfiguration` (src/unnamed/part_001 imports it
from `./interfaces/`): client id and secret. -/
structure AirThingsConfiguration where
  id : String
  secret : String
deriving DecidableEq

/-- Interface `AccessToken`: the cached token object built by `updateToken`.
Fields are `Option`s because the source builds them from unvalidated JSON
field accesses that may yield `undefined`. -/
structure AccessToken where
  token : Option String
  type : Option String
  expiresAt : JsNum
deriving DecidableEq

/-- The mutable instance state of the `AirThingsApi` class
(src/unnamed/part_001:15-16): the configuration and the cached token. -/
structure ClientState where
  config : AirThingsConfiguration
  accessToken : Option AccessToken
deriving DecidableEq

/-- Embeds the constructor (src/unnamed/part_001:18-21). -/
def mkAirThingsApi (configuration : AirThingsConfiguration) : ClientState :=
  { config := configuration, accessToken := none }

/-- A JavaScript `Error` value: only its message is observable here. -/
structure JsError where
  message : String
deriving DecidableEq

/-- An HTTP response as `fetch` resolves it: a status code and a body,
the latter abstracted to whether/what it parses as JSON. -/
structure HttpResponse where
  status : Nat
  bodyJson : Option Json

/-- The outcome the network supplies for one `fetch` call: a transport
failure (the promise rejects) or a response with any status. -/
inductive FetchResult where
  | reject (message : String)
  | resolve (res : HttpResponse)

/-- Observable events of one method call: the `isTokenExpired` check, the
token-endpoint POST, and the resource-endpoint GET with its
`Authorization` header value. -/
inductive Event where
  | tokenCheck
  | tokenRequest (url : String)
  | resourceRequest (url : String) (authHeader : String)
deriving DecidableEq

/-- Template-literal interpolation of a possibly-undefined string:
`${undefined}` renders as "undefined". -/
def jsShowOptStr : Option String → String
  | none => "undefined"
  | some s => s

/-- Template-literal interpolation of a possibly-undefined boolean. -/
def jsShowOptBool : Option Bool → String
  | none => "undefined"
  | some true => "true"
  | some false => "false"

/-- Template-literal interpolation of a possibly-undefined number. -/
def jsShowOptInt : Option Int → String
  | none => "undefined"
  | some n => toString n

/-- Embeds `handleError` (src/unnamed/part_001:229-232): wraps the
underlying message into a single client-level error. -/
def handleError (error : JsError) : JsError :=
  { message := "airthings-api error: " ++ error.message }

/-- The error `JSON.parse` (or `res.json()`) throws on a body that is not
valid JSON; its exact message text is environment-defined. -/
def jsonParseError : JsError :=
  { message := "Unexpected token in JSON" }

/-- The token endpoint URL (src/unnamed/part_001:201). -/
def tokenUrl : String := "https://accounts-api.airthings.com/v1/token"

/-- Embeds `updateToken` (src/unnamed/part_001:192-227). `resp` is the fetch
outcome for the token endpoint and `now` is `Date.now()`. On a resolved
response of ANY status whose body parses as JSON, the source builds a token
from `data.access_token` / `data.token_type` / `data.expires_in + Date.now()`
and assigns `this.accessToken`; only a rejected fetch or a JSON parse
failure reaches the catch, which throws `handleError` and leaves the
assignment unexecuted. -/
def updateToken (st : ClientState) (now : Int) (resp : FetchResult) :
    List Event × ClientState × Except JsError Unit :=
  match resp with
  | .reject msg =>
      ([.tokenRequest tokenUrl], st, .error (handleError { message := msg }))
  | .resolve res =>
      match res.bodyJson with
      | none =>
          ([.tokenRequest tokenUrl], st, .error (handleError jsonParseError))
      | some data =>
          let token : AccessToken :=
            { token := data.getStr "access_token"
              type := data.getStr "token_type"
              expiresAt :=
                match data.getNum "expires_in" with
                | none => JsNum.nan
                | some n => JsNum.num (n + now) }
          ([.tokenRequest tokenUrl],
           { st with accessToken := some token }, .ok ())

/-- Embeds `isTokenExpired` (src/unnamed/part_001:183-187):
`!accessToken || accessToken.expiresAt - 15 < Date.now()`. A `NaN`
comparison is false in JavaScript, so a token whose `expiresAt` is `NaN`
is never reported expired. -/
def isTokenExpired (st : ClientState) (now : Int) : Bool :=
  match st.accessToken with
  | none => true
  | some tok =>
      match tok.expiresAt with
      | JsNum.nan => false
      | JsNum.num e => decide (e - 15 < now)

/-- The `Authorization` header value `Bearer ${this.accessToken.token}`
(e.g. src/unnamed/part_001:69). -/
def bearerHeader (tok : AccessToken) : String :=
  "Bearer " ++ jsShowOptStr tok.token

/-- The shared preamble of every public method (e.g.
src/unnamed/part_001:62-63): the expiry check, the conditional
`await this.updateToken()`, and the `if (!this.accessToken) throw new
Error('No access token')` guard. Returns the trace so far, the state after
a possible refresh, and either the token to use or the thrown error. -/
def ensureToken (st : ClientState) (now : Int) (tokenResp : FetchResult) :
    List Event × ClientState × Except JsError AccessToken :=
  let step : List Event × ClientState × Except JsError Unit :=
    if isTokenExpired st now then
      let u := updateToken st now tokenResp
      (Event.tokenCheck :: u.1, u.2.1, u.2.2)
    else
      ([Event.tokenCheck], st, Except.ok ())
  match step with
  | (tr, st2, Except.error e) => (tr, st2, Except.error e)
  | (tr, st2, Except.ok _) =>
      match st2.accessToken with
      | none => (tr, st2, Except.error { message := "No access token" })
      | some tok => (tr, st2, Except.ok tok)

/-- The result of one public method call: the events it emitted, the final
instance state, and the JS return value or thrown error. -/
structure MethodResult (α : Type) where
  trace : List Event
  state : ClientState
  result : Except JsError α

/-- The shared body of every resource method of src/unnamed/part_001: ensure
a token, issue the GET with the bearer header, and on a resolved response
parse the body as JSON (whole body as the result); a rejected fetch or a
parse failure is wrapped by `handleError`. The status code is never
inspected. -/
def runGet (st : ClientState) (now : Int) (tokenResp : FetchResult)
    (url : String) (resourceResp : FetchResult) : MethodResult Json :=
  match ensureToken st now tokenResp with
  | (tr, st2, Except.error e) =>
      { trace := tr, state := st2, result := Except.error e }
  | (tr, st2, Except.ok tok) =>
      let tr2 := tr ++ [Event.resourceRequest url (bearerHeader tok)]
      match resourceResp with
      | FetchResult.reject msg =>
          { trace := tr2, state := st2,
            result := Except.error (handleError { message := msg }) }
      | FetchResult.resolve res =>
          match res.bodyJson with
          | none =>
              { trace := tr2, state := st2,
                result := Except.error (handleError jsonParseError) }
          | some body =>
              { trace := tr2, state := st2, result := Except.ok body }

/-- Post-processing that projects a field out of the parsed body, as the
`then` callbacks of `getDeviceList` / `getLocations` do
(`value.devices`, `value.locations`); the projection may be `undefined`. -/
def projectField (r : MethodResult Json) (field : String) :
    MethodResult (Option Json) :=
  { trace := r.trace, state := r.state,
    result := r.result.map (fun body => Json.get body field) }

/-- The optional query parameters of `getDeviceList`
(src/unnamed/part_001:29-33). A missing field is `undefined`. -/
structure DeviceListQueryParams where
  showInactive : Option Bool
  limit : Option Int
  offset : Option Int
deriving DecidableEq

/-- The TypeScript default parameter value
`{ showInactive: false, limit: 10, offset: 0 }`
(src/unnamed/part_001:33), used only when the argument is omitted entirely. -/
def defaultDeviceListQueryParams : DeviceListQueryParams :=
  { showInactive := some false, limit := some 10, offset := some 0 }

/-- The URL template of `getDeviceList` (src/unnamed/part_001:39). -/
def deviceListUrl (q : DeviceListQueryParams) : String :=
  "https://ext-api.airthings.com/v1/devices?showInactive=" ++
    jsShowOptBool q.showInactive ++
    "&limit=" ++ jsShowOptInt q.limit ++
    "&offset=" ++ jsShowOptInt q.offset

/-- The URL of `getDevice` (src/unnamed/part_001:66). -/
def deviceUrl (deviceId : String) : String :=
  "https://ext-api.airthings.com/v1/devices/" ++ deviceId

/-- The URL of `getDeviceSamples` (src/unnamed/part_001:91). -/
def deviceSamplesUrl (deviceId : String) : String :=
  "https://ext-api.airthings.com/v1/devices/" ++ deviceId ++ "/latest-samples"

/-- The URL of `getLocations` (src/unnamed/part_001:114). -/
def locationsUrl : String := "https://ext-api.airthings.com/v1/locations"

/-- The URL of `getLocation` (src/unnamed/part_001:138). -/
def locationUrl (locationId : String) : String :=
  "https://ext-api.airthings.com/v1/locations/" ++ locationId

/-- The URL of `getLocationSamples` (src/unnamed/part_001:164). -/
def locationSamplesUrl (locationId : String) : String :=
  "https://ext-api.airthings.com/v1/locations/" ++ locationId ++
    "/latest-samples"

/-- Embeds `getDeviceList` (src/unnamed/part_001:28-54): GET on the devices
URL built from the query parameters, returning `value.devices`. -/
def getDeviceList (st : ClientState) (now : Int)
    (tokenResp resourceResp : FetchResult)
    (queryParams : DeviceListQueryParams) : MethodResult (Option Json) :=
  projectField (runGet st now tokenResp (deviceListUrl queryParams)
    resourceResp) "devices"

/-- Embeds `getDevice` (src/unnamed/part_001:61-79): the whole parsed body
is returned (`(await res.json()) as Device`). -/
def getDevice (st : ClientState) (now : Int)
    (tokenResp resourceResp : FetchResult) (deviceId : String) :
    MethodResult Json :=
  runGet st now tokenResp (deviceUrl deviceId) resourceResp

/-- Embeds `getDeviceSamples` (src/unnamed/part_001:86-104): the whole
parsed body is returned (`JSON.parse(await res.text()) as Samples`); no
field is projected out. -/
def getDeviceSamples (st : ClientState) (now : Int)
    (tokenResp resourceResp : FetchResult) (deviceId : String) :
    MethodResult Json :=
  runGet st now tokenResp (deviceSamplesUrl deviceId) resourceResp

/-- Embeds `getLocations` (src/unnamed/part_001:110-127): returns
`value.locations`. -/
def getLocations (st : ClientState) (now : Int)
    (tokenResp resourceResp : FetchResult) : MethodResult (Option Json) :=
  projectField (runGet st now tokenResp locationsUrl resourceResp) "locations"

/-- Embeds `getLocation` (src/unnamed/part_001:133-151): the whole parsed
body is returned. -/
def getLocation (st : ClientState) (now : Int)
    (tokenResp resourceResp : FetchResult) (locationId : String) :
    MethodResult Json :=
  runGet st now tokenResp (locationUrl locationId) resourceResp

/-- Embeds `getLocationSamples` (src/unnamed/part_001:157-177): the whole
parsed body is returned. -/
def getLocationSamples (st : ClientState) (now : Int)
    (tokenResp resourceResp : FetchResult) (locationId : String) :
    MethodResult Json :=
  runGet st now tokenResp (locationSamplesUrl locationId) resourceResp

/-- The response projection of the axios-based `getDeviceSamples`
(src/src/index.ts:350-352, second document): `value.data.data`, i.e. the
nested `data` field is extracted from the response body. -/
def axiosDeviceSamplesProjection (body : Json) : Option Json :=
  Json.get body "data"

/-- Counts the token-endpoint requests in a trace. -/
def countTokenRequests (tr : List Event) : Nat :=
  (tr.filter fun e =>
    match e with
    | Event.tokenRequest _ => true
    | _ => false).length

/-- Holds when no token-endpoint request occurs after a resource request
in the trace: every token fetch completes before any resource fetch. -/
def tokenBeforeResource : List Event → Bool
  | [] => true
  | Event.resourceRequest _ _ :: rest =>
      rest.all fun e =>
        match e with
        | Event.tokenRequest _ => false
        | _ => true
  | _ :: rest => tokenBeforeResource rest

/-- A wrapped client error always carries the `airthings-api error: ` prefix,
so it is never the literal `No access token` error. -/
theorem handleError_ne_noToken (e : JsError) :
    handleError e ≠ { message := "No access token" } := by
  intro h
  have hm : "airthings-api error: " ++ e.message = "No access token" :=
    congrArg JsError.message h
  have h2 := congrArg String.length hm
  rw [String.length_append] at h2
  have e1 : ("airthings-api error: " : String).length = 21 := rfl
  have e2 : ("No access token" : String).length = 15 := rfl
  rw [e1, e2] at h2
  omega

/-- A state whose expiry check returns false holds a cached token. -/
theorem not_expired_isSome (st : ClientState) (now : Int)
    (h : isTokenExpired st now = false) : st.accessToken.isSome = true := by
  cases htok : st.accessToken with
  | none => simp [isTokenExpired, htok] at h
  | some tok => rfl

/-- Case analysis of `ensureToken`: a failed refresh propagates a wrapped
error and leaves the state unchanged; a successful refresh returns the
freshly stored token; a valid cached token is returned as is. The literal
`No access token` branch occurs in no case. -/
theorem ensureToken_spec (st : ClientState) (now : Int)
    (tokenResp : FetchResult) :
    (∃ m, isTokenExpired st now = true ∧
      ensureToken st now tokenResp =
        ([Event.tokenCheck, Event.tokenRequest tokenUrl], st,
         Except.error (handleError m))) ∨
    (∃ tok, isTokenExpired st now = true ∧
      ensureToken st now tokenResp =
        ([Event.tokenCheck, Event.tokenRequest tokenUrl],
         { st with accessToken := some tok }, Except.ok tok)) ∨
    (∃ tok, isTokenExpired st now = false ∧ st.accessToken = some tok ∧
      ensureToken st now tokenResp = ([Event.tokenCheck], st, Except.ok tok))
    := by
  cases hexp : isTokenExpired st now with
  | false =>
      refine Or.inr (Or.inr ?_)
      cases htok : st.accessToken with
      | none => simp [isTokenExpired, htok] at hexp
      | some tok =>
          exact ⟨tok, rfl, rfl, by simp [ensureToken, hexp, htok]⟩
  | true =>
      rcases tokenResp with m | ⟨s, b⟩
      · exact Or.inl ⟨{ message := m }, rfl,
          by simp [ensureToken, updateToken, hexp]⟩
      · cases b with
        | none => exact Or.inl ⟨jsonParseError, rfl,
            by simp [ensureToken, updateToken, hexp]⟩
        | some data =>
            refine Or.inr (Or.inl ⟨{ token := data.getStr "access_token",
                                     type := data.getStr "token_type",
                                     expiresAt := (match data.getNum "expires_in" with
                                       | none => JsNum.nan
                                       | some n => JsNum.num (n + now)) },
              rfl, ?_⟩)
            simp [ensureToken, updateToken, hexp]

/-- Trace facts of `runGet` shared by the temporal claims: the expiry check
is the first event, every token fetch precedes any resource fetch, and the
number of token fetches is one when the cached token was missing or expired
and zero otherwise. -/
theorem runGet_trace_props (st : ClientState) (now : Int)
    (tokenResp : FetchResult) (url : String) (resourceResp : FetchResult) :
    (runGet st now tokenResp url resourceResp).trace.head? =
      some Event.tokenCheck ∧
    tokenBeforeResource (runGet st now tokenResp url resourceResp).trace =
      true ∧
    countTokenRequests (runGet st now tokenResp url resourceResp).trace =
      (if isTokenExpired st now then 1 else 0) := by
  rcases ensureToken_spec st now tokenResp with
    ⟨m, hexp, heq⟩ | ⟨tok, hexp, heq⟩ | ⟨tok, hexp, htok, heq⟩
  · simp [runGet, heq, hexp, tokenBeforeResource, countTokenRequests]
  · rcases resourceResp with m2 | ⟨s, b⟩
    · simp [runGet, heq, hexp, tokenBeforeResource, countTokenRequests]
    · cases b <;>
        simp [runGet, heq, hexp, tokenBeforeResource, countTokenRequests]
  · rcases resourceResp with m2 | ⟨s, b⟩
    · simp [runGet, heq, hexp, tokenBeforeResource, countTokenRequests]
    · cases b <;>
        simp [runGet, heq, hexp, tokenBeforeResource, countTokenRequests]

/-- With a still-valid token, `runGet` leaves the instance state unchanged
and performs no token fetch. -/
theorem runGet_valid_frame (st : ClientState) (now : Int)
    (tokenResp : FetchResult) (url : String) (resourceResp : FetchResult)
    (h : isTokenExpired st now = false) :
    (runGet st now tokenResp url resourceResp).state = st ∧
    countTokenRequests (runGet st now tokenResp url resourceResp).trace = 0
    := by
  have hp := (runGet_trace_props st now tokenResp url resourceResp).2.2
  rw [h] at hp
  simp only [if_false, Bool.false_eq_true] at hp
  refine ⟨?_, hp⟩
  rcases ensureToken_spec st now tokenResp with
    ⟨m, hexp, heq⟩ | ⟨tok, hexp, heq⟩ | ⟨tok, hexp, htok, heq⟩
  · rw [hexp] at h; exact Bool.noConfusion h
  · rw [hexp] at h; exact Bool.noConfusion h
  · rcases resourceResp with m2 | ⟨s, b⟩
    · simp [runGet, heq]
    · cases b <;> simp [runGet, heq]

/-- With a still-valid token and a resolved JSON response, `runGet` returns
the parsed body. -/
theorem runGet_valid_result (st : ClientState) (now : Int)
    (tokenResp : FetchResult) (url : String) (status : Nat) (body : Json)
    (h : isTokenExpired st now = false) :
    (runGet st now tokenResp url
      (FetchResult.resolve { status := status, bodyJson := some body })).result
      = Except.ok body := by
  rcases ensureToken_spec st now tokenResp with
    ⟨m, hexp, heq⟩ | ⟨tok, hexp, heq⟩ | ⟨tok, hexp, htok, heq⟩
  · rw [hexp] at h; exact Bool.noConfusion h
  · rw [hexp] at h; exact Bool.noConfusion h
  · simp [runGet, heq]

/-- The thrown error of `runGet` is never the literal `No access token`
error: the guard after the refresh can never fire. -/
theorem runGet_noToken_unreachable (st : ClientState) (now : Int)
    (tokenResp : FetchResult) (url : String) (resourceResp : FetchResult) :
    (runGet st now tokenResp url resourceResp).result ≠
      Except.error { message := "No access token" } := by
  rcases ensureToken_spec st now tokenResp with
    ⟨m, hexp, heq⟩ | ⟨tok, hexp, heq⟩ | ⟨tok, hexp, htok, heq⟩
  · simpa [runGet, heq] using handleError_ne_noToken m
  · rcases resourceResp with m2 | ⟨s, b⟩
    · simpa [runGet, heq] using handleError_ne_noToken { message := m2 }
    · cases b with
      | none => simpa [runGet, heq] using handleError_ne_noToken jsonParseError
      | some body => simp [runGet, heq]
  · rcases resourceResp with m2 | ⟨s, b⟩
    · simpa [runGet, heq] using handleError_ne_noToken { message := m2 }
    · cases b with
      | none => simpa [runGet, heq] using handleError_ne_noToken jsonParseError
      | some body => simp [runGet, heq]

/-- Whenever `updateToken` completes without throwing, the cached token
field has just been assigned and is non-null. -/
theorem updateToken_ok_isSome (st : ClientState) (now : Int)
    (resp : FetchResult) (h : (updateToken st now resp).2.2 = Except.ok ()) :
    ((updateToken st now resp).2.1.accessToken).isSome = true := by
  rcases resp with m | ⟨s, b⟩
  · simp [updateToken] at h
  · cases b with
    | none => simp [updateToken] at h
    | some data => simp [updateToken]

/-- Projection of a field out of the body changes neither trace nor state. -/
theorem projectField_trace (r : MethodResult Json) (f : String) :
    (projectField r f).trace = r.trace := rfl

/-- Projection of a field out of the body preserves the instance state. -/
theorem projectField_state (r : MethodResult Json) (f : String) :
    (projectField r f).state = r.state := rfl

/-- Projection of a field preserves the impossibility of the
`No access token` error. -/
theorem projectField_noToken (r : MethodResult Json) (f : String)
    (h : r.result ≠ Except.error { message := "No access token" }) :
    (projectField r f).result ≠ Except.error { message := "No access token" }
    := by
  rcases hr : r.result with e | v
  · rw [hr] at h
    simp only [projectField, hr, Except.map]
    intro hc
    exact h (congrArg Except.error (Except.error.inj hc))
  · simp [projectField, hr, Except.map]

/-- C10: calling `getDeviceList` with a partial query object such as
`{showInactive: true}` interpolates the missing fields as `undefined`,
producing `limit=undefined&offset=undefined` in the URL; the documented
defaults `false/10/0` come from the TypeScript default parameter value and
therefore apply only when the argument is omitted entirely. -/
theorem partialQueryParams_interpolateUndefined :
    deviceListUrl { showInactive := some true, limit := none, offset := none }
      = "https://ext-api.airthings.com/v1/devices?showInactive=true&limit=undefined&offset=undefined"
    ∧ defaultDeviceListQueryParams =
        { showInactive := some false, limit := some 10, offset := some 0 }
    ∧ deviceListUrl defaultDeviceListQueryParams =
        "https://ext-api.airthings.com/v1/devices?showInactive=false&limit=10&offset=0"
    := ⟨rfl, rfl, rfl⟩

/-- C4 counterexample: at `expiresAt = 100`, skew `15`, `now = 85` the
expiry check reports the token still valid (not expired) although the
claimed characterisation `expiresAt - skew > now` fails, refuting the
strict-inequality reading. -/
theorem isValid_boundary_counterexample :
    isTokenExpired
      { config := { id := "i", secret := "s" },
        accessToken := some { token := some "abc", type := some "Bearer",
                              expiresAt := JsNum.num 100 } } 85 = false
    ∧ ¬ ((100 : Int) - 15 > (85 : Int)) := ⟨rfl, by omega⟩

/-- C4 (amended): for a fetched token with numeric expiry the validity
check — the negation of `isTokenExpired` — returns true iff
`expiresAt - skew ≥ now` with skew 15: false for every
`now > expiresAt - skew`, true for every `now ≤ expiresAt - skew`; and it
reports no valid token when none exists. -/
theorem isValid_iff_skewAdjustedExpiry_ge_now (c : AirThingsConfiguration)
    (t ty : Option String) (e now : Int) :
    (isTokenExpired { config := c, accessToken := none } now = true)
    ∧ (isTokenExpired
        { config := c,
          accessToken := some { token := t, type := ty,
                                expiresAt := JsNum.num e } } now = false
        ↔ e - 15 ≥ now) := by
  refine ⟨rfl, ?_⟩
  simp [isTokenExpired]

/-- C3 (code bug): the token endpoint returns
`{access_token:"abc", token_type:"Bearer", expires_in:3600}` at time `T`
(milliseconds, as `Date.now()` counts): `updateToken` stores
`expiresAt = 3600 + T`, adding seconds to milliseconds, and the expiry
check already reports the token expired at `T + 3586` ms — in particular at
`T + 3599000` ms, i.e. `T+3599` seconds, where the claim requires it to be
valid. -/
theorem expiresIn_secondsAddedToMilliseconds (T : Int) :
    ((updateToken (mkAirThingsApi { id := "i", secret := "s" }) T
        (FetchResult.resolve { status := 200, bodyJson := some (Json.obj
          [("access_token", Json.str "abc"),
           ("token_type", Json.str "Bearer"),
           ("expires_in", Json.num 3600)]) })).2.1.accessToken
      = some { token := some "abc", type := some "Bearer",
               expiresAt := JsNum.num (3600 + T) })
    ∧ isTokenExpired
        { config := { id := "i", secret := "s" },
          accessToken := some { token := some "abc", type := some "Bearer",
                                expiresAt := JsNum.num (3600 + T) } }
        (T + 3599000) = true
    ∧ isTokenExpired
        { config := { id := "i", secret := "s" },
          accessToken := some { token := some "abc", type := some "Bearer",
                                expiresAt := JsNum.num (3600 + T) } }
        (T + 3586) = true := by
  refine ⟨rfl, ?_, ?_⟩
  · simp [isTokenExpired]
    omega
  · simp [isTokenExpired]
    omega

/-- C1 (code bug): when the token endpoint responds HTTP 401 with a JSON
error body, `fetch` does not reject, so `getDevice("x")` raises no error:
the previously cached token is overwritten with
`{token: undefined, type: undefined, expiresAt: NaN}`, the resource request
IS attempted with header `Bearer undefined`, and the call returns whatever
the resource endpoint answers — against the claimed AuthError, the
untouched-token guarantee, and the no-resource-request guarantee. -/
theorem tokenEndpoint401_overwritesToken_andIssuesResourceRequest :
    getDevice
      { config := { id := "i", secret := "s" },
        accessToken := some { token := some "old", type := some "Bearer",
                              expiresAt := JsNum.num 50 } }
      1000
      (FetchResult.resolve { status := 401, bodyJson := some (Json.obj
        [("error", Json.str "invalid_client")]) })
      (FetchResult.resolve { status := 404, bodyJson := some (Json.obj
        [("error", Json.str "device not found")]) })
      "x"
    = { trace := [Event.tokenCheck, Event.tokenRequest tokenUrl,
          Event.resourceRequest (deviceUrl "x") "Bearer undefined"],
        state := { config := { id := "i", secret := "s" },
                   accessToken := some { token := none, type := none,
                                         expiresAt := JsNum.nan } },
        result := Except.ok (Json.obj
          [("error", Json.str "device not found")]) } := rfl

/-- C2 (code bug): with a valid cached token, a resource response of HTTP
500 whose body is JSON raises nothing: `fetch` does not reject on non-2xx
and the code never checks `res.ok`, so `getDeviceSamples("x")` returns the
parsed error body as its result (first conjunct); the cached token is left
unchanged, and only a transport failure (second conjunct) is wrapped into
the claimed client-level error. -/
theorem resourceNon2xx_returnsBodyInsteadOfError :
    getDeviceSamples
      { config := { id := "i", secret := "s" },
        accessToken := some { token := some "abc", type := some "Bearer",
                              expiresAt := JsNum.num 1000000 } }
      100 (FetchResult.reject "token endpoint not contacted")
      (FetchResult.resolve { status := 500, bodyJson := some (Json.obj
        [("error", Json.str "internal server error")]) })
      "x"
    = { trace := [Event.tokenCheck,
          Event.resourceRequest (deviceSamplesUrl "x") "Bearer abc"],
        state := { config := { id := "i", secret := "s" },
                   accessToken := some { token := some "abc",
                                         type := some "Bearer",
                                         expiresAt := JsNum.num 1000000 } },
        result := Except.ok (Json.obj
          [("error", Json.str "internal server error")]) }
    ∧ getDeviceSamples
        { config := { id := "i", secret := "s" },
          accessToken := some { token := some "abc", type := some "Bearer",
                                expiresAt := JsNum.num 1000000 } }
        100 (FetchResult.reject "token endpoint not contacted")
        (FetchResult.reject "socket hang up") "x"
      = { trace := [Event.tokenCheck,
            Event.resourceRequest (deviceSamplesUrl "x") "Bearer abc"],
          state := { config := { id := "i", secret := "s" },
                     accessToken := some { token := some "abc",
                                           type := some "Bearer",
                                           expiresAt := JsNum.num 1000000 } },
          result := Except.error
            { message := "airthings-api error: socket hang up" } }
    := ⟨rfl, rfl⟩

/-- C5 (code bug): `getDeviceSamples` targets
`/v1/devices/{id}/latest-samples` (third conjunct) but returns the whole
parsed body — the `{data: …}` wrapper — rather than the nested `data`
field (first conjunct); the older axios variant
(src/src/index.ts:350-352) projects `value.data.data`, extracting the
nested field exactly as the claim describes (second conjunct). -/
theorem getDeviceSamples_returnsWholeBody_notDataField :
    getDeviceSamples
      { config := { id := "i", secret := "s" },
        accessToken := some { token := some "abc", type := some "Bearer",
                              expiresAt := JsNum.num 1000000 } }
      100 (FetchResult.reject "token endpoint not contacted")
      (FetchResult.resolve { status := 200, bodyJson := some (Json.obj
        [("data", Json.obj [("battery", Json.num 95),
                            ("co2", Json.num 600)])]) })
      "x"
    = { trace := [Event.tokenCheck,
          Event.resourceRequest (deviceSamplesUrl "x") "Bearer abc"],
        state := { config := { id := "i", secret := "s" },
                   accessToken := some { token := some "abc",
                                         type := some "Bearer",
                                         expiresAt := JsNum.num 1000000 } },
        result := Except.ok (Json.obj
          [("data", Json.obj [("battery", Json.num 95),
                              ("co2", Json.num 600)])]) }
    ∧ axiosDeviceSamplesProjection
        (Json.obj [("data", Json.obj [("battery", Json.num 95),
                                      ("co2", Json.num 600)])])
      = some (Json.obj [("battery", Json.num 95), ("co2", Json.num 600)])
    ∧ deviceSamplesUrl "x"
      = "https://ext-api.airthings.com/v1/devices/x/latest-samples"
    := ⟨rfl, rfl, rfl⟩

/-- C6: `listDevices({showInactive:true, limit:5, offset:10})` targets
`/v1/devices?showInactive=true&limit=5&offset=10`; the defaults
`false/10/0` are the TypeScript default parameter value used when the
filter argument is omitted; and the result is the `devices` field
extracted from the parsed response body. -/
theorem getDeviceList_url_and_devices_extraction (st : ClientState)
    (now : Int) (tokenResp : FetchResult) (body : Json)
    (q : DeviceListQueryParams) (h : isTokenExpired st now = false) :
    deviceListUrl { showInactive := some true, limit := some 5,
                    offset := some 10 }
      = "https://ext-api.airthings.com/v1/devices?showInactive=true&limit=5&offset=10"
    ∧ defaultDeviceListQueryParams
      = { showInactive := some false, limit := some 10, offset := some 0 }
    ∧ deviceListUrl defaultDeviceListQueryParams
      = "https://ext-api.airthings.com/v1/devices?showInactive=false&limit=10&offset=0"
    ∧ (getDeviceList st now tokenResp
        (FetchResult.resolve { status := 200, bodyJson := some body })
        q).result = Except.ok (Json.get body "devices") := by
  refine ⟨rfl, rfl, rfl, ?_⟩
  have hr := runGet_valid_result st now tokenResp (deviceListUrl q) 200 body h
  simp [getDeviceList, projectField, hr, Except.map]

/-- Witness for C6: the devices-array extraction evaluated at a concrete
valid-token state and a concrete response body. -/
theorem getDeviceList_url_and_devices_extraction_witness :
    (getDeviceList
      { config := { id := "i", secret := "s" },
        accessToken := some { token := some "abc", type := some "Bearer",
                              expiresAt := JsNum.num 1000000 } }
      100 (FetchResult.reject "token endpoint not contacted")
      (FetchResult.resolve
        { status := 200,
          bodyJson := some (Json.obj [("devices", Json.arr [])]) })
      { showInactive := some true, limit := some 5, offset := some 10 }).result
    = Except.ok (Json.get (Json.obj [("devices", Json.arr [])]) "devices") :=
  (getDeviceList_url_and_devices_extraction
    { config := { id := "i", secret := "s" },
      accessToken := some { token := some "abc", type := some "Bearer",
                            expiresAt := JsNum.num 1000000 } }
    100 (FetchResult.reject "token endpoint not contacted")
    (Json.obj [("devices", Json.arr [])])
    { showInactive := some true, limit := some 5, offset := some 10 }
    rfl).2.2.2

/-- C7: a freshly constructed client has no cached token; its first
resource call (here `getDeviceList`) performs exactly one token fetch,
which completes before the resource request is issued; and within every
single call of every operation, for any state, the token check is the
first event and every token fetch precedes any resource request. -/
theorem freshClient_firstCall_singleTokenFetch_ordering
    (configuration : AirThingsConfiguration) (st : ClientState) (now : Int)
    (tokenResp r1 r2 r3 r4 r5 r6 : FetchResult) (q : DeviceListQueryParams)
    (deviceId locationId : String) :
    (mkAirThingsApi configuration).accessToken = none
    ∧ countTokenRequests
        (getDeviceList (mkAirThingsApi configuration) now tokenResp r1
          q).trace = 1
    ∧ tokenBeforeResource
        (getDeviceList (mkAirThingsApi configuration) now tokenResp r1
          q).trace = true
    ∧ (getDeviceList (mkAirThingsApi configuration) now tokenResp r1
        q).trace.head? = some Event.tokenCheck
    ∧ tokenBeforeResource (getDeviceList st now tokenResp r1 q).trace = true
    ∧ (getDeviceList st now tokenResp r1 q).trace.head?
        = some Event.tokenCheck
    ∧ tokenBeforeResource (getDevice st now tokenResp r2 deviceId).trace
        = true
    ∧ (getDevice st now tokenResp r2 deviceId).trace.head?
        = some Event.tokenCheck
    ∧ tokenBeforeResource
        (getDeviceSamples st now tokenResp r3 deviceId).trace = true
    ∧ (getDeviceSamples st now tokenResp r3 deviceId).trace.head?
        = some Event.tokenCheck
    ∧ tokenBeforeResource (getLocations st now tokenResp r4).trace = true
    ∧ (getLocations st now tokenResp r4).trace.head? = some Event.tokenCheck
    ∧ tokenBeforeResource (getLocation st now tokenResp r5 locationId).trace
        = true
    ∧ (getLocation st now tokenResp r5 locationId).trace.head?
        = some Event.tokenCheck
    ∧ tokenBeforeResource
        (getLocationSamples st now tokenResp r6 locationId).trace = true
    ∧ (getLocationSamples st now tokenResp r6 locationId).trace.head?
        = some Event.tokenCheck := by
  have hfresh : isTokenExpired (mkAirThingsApi configuration) now = true := rfl
  have hcount := (runGet_trace_props (mkAirThingsApi configuration) now
    tokenResp (deviceListUrl q) r1).2.2
  rw [hfresh] at hcount
  refine ⟨rfl, by simpa using hcount,
    (runGet_trace_props (mkAirThingsApi configuration) now tokenResp
      (deviceListUrl q) r1).2.1,
    (runGet_trace_props (mkAirThingsApi configuration) now tokenResp
      (deviceListUrl q) r1).1,
    (runGet_trace_props st now tokenResp (deviceListUrl q) r1).2.1,
    (runGet_trace_props st now tokenResp (deviceListUrl q) r1).1,
    (runGet_trace_props st now tokenResp (deviceUrl deviceId) r2).2.1,
    (runGet_trace_props st now tokenResp (deviceUrl deviceId) r2).1,
    (runGet_trace_props st now tokenResp (deviceSamplesUrl deviceId) r3).2.1,
    (runGet_trace_props st now tokenResp (deviceSamplesUrl deviceId) r3).1,
    (runGet_trace_props st now tokenResp locationsUrl r4).2.1,
    (runGet_trace_props st now tokenResp locationsUrl r4).1,
    (runGet_trace_props st now tokenResp (locationUrl locationId) r5).2.1,
    (runGet_trace_props st now tokenResp (locationUrl locationId) r5).1,
    (runGet_trace_props st now tokenResp
      (locationSamplesUrl locationId) r6).2.1,
    (runGet_trace_props st now tokenResp
      (locationSamplesUrl locationId) r6).1⟩

/-- C8: any resource operation invoked while the cached token is still
valid under the skew rule performs zero token fetches and leaves the
cached token field unchanged. -/
theorem validToken_zeroFetches_tokenUnchanged (st : ClientState) (now : Int)
    (tokenResp r1 r2 r3 r4 r5 r6 : FetchResult) (q : DeviceListQueryParams)
    (deviceId locationId : String) (h : isTokenExpired st now = false) :
    (countTokenRequests (getDeviceList st now tokenResp r1 q).trace = 0
      ∧ (getDeviceList st now tokenResp r1 q).state.accessToken
          = st.accessToken)
    ∧ (countTokenRequests (getDevice st now tokenResp r2 deviceId).trace = 0
      ∧ (getDevice st now tokenResp r2 deviceId).state.accessToken
          = st.accessToken)
    ∧ (countTokenRequests
          (getDeviceSamples st now tokenResp r3 deviceId).trace = 0
      ∧ (getDeviceSamples st now tokenResp r3 deviceId).state.accessToken
          = st.accessToken)
    ∧ (countTokenRequests (getLocations st now tokenResp r4).trace = 0
      ∧ (getLocations st now tokenResp r4).state.accessToken
          = st.accessToken)
    ∧ (countTokenRequests
          (getLocation st now tokenResp r5 locationId).trace = 0
      ∧ (getLocation st now tokenResp r5 locationId).state.accessToken
          = st.accessToken)
    ∧ (countTokenRequests
          (getLocationSamples st now tokenResp r6 locationId).trace = 0
      ∧ (getLocationSamples st now tokenResp r6 locationId).state.accessToken
          = st.accessToken) := by
  have l1 := runGet_valid_frame st now tokenResp (deviceListUrl q) r1 h
  have l2 := runGet_valid_frame st now tokenResp (deviceUrl deviceId) r2 h
  have l3 := runGet_valid_frame st now tokenResp (deviceSamplesUrl deviceId)
    r3 h
  have l4 := runGet_valid_frame st now tokenResp locationsUrl r4 h
  have l5 := runGet_valid_frame st now tokenResp (locationUrl locationId)
    r5 h
  have l6 := runGet_valid_frame st now tokenResp
    (locationSamplesUrl locationId) r6 h
  exact ⟨⟨l1.2, congrArg ClientState.accessToken l1.1⟩,
    ⟨l2.2, congrArg ClientState.accessToken l2.1⟩,
    ⟨l3.2, congrArg ClientState.accessToken l3.1⟩,
    ⟨l4.2, congrArg ClientState.accessToken l4.1⟩,
    ⟨l5.2, congrArg ClientState.accessToken l5.1⟩,
    ⟨l6.2, congrArg ClientState.accessToken l6.1⟩⟩

/-- Witness for C8: zero token fetches evaluated at a concrete
valid-token state. -/
theorem validToken_zeroFetches_tokenUnchanged_witness :
    countTokenRequests
      (getDeviceList
        { config := { id := "i", secret := "s" },
          accessToken := some { token := some "abc", type := some "Bearer",
                                expiresAt := JsNum.num 1000000 } }
        100 (FetchResult.reject "token endpoint not contacted")
        (FetchResult.reject "resource endpoint down")
        defaultDeviceListQueryParams).trace = 0 :=
  (validToken_zeroFetches_tokenUnchanged
    { config := { id := "i", secret := "s" },
      accessToken := some { token := some "abc", type := some "Bearer",
                            expiresAt := JsNum.num 1000000 } }
    100 (FetchResult.reject "token endpoint not contacted")
    (FetchResult.reject "resource endpoint down")
    (FetchResult.reject "resource endpoint down")
    (FetchResult.reject "resource endpoint down")
    (FetchResult.reject "resource endpoint down")
    (FetchResult.reject "resource endpoint down")
    (FetchResult.reject "resource endpoint down")
    defaultDeviceListQueryParams "x" "loc" rfl).1.1

/-- C9: the `No access token` guard after the refresh step is unreachable:
whenever `updateToken` completes without throwing, the cached token field
is non-null, and no public operation ever produces the literal
`No access token` error — each call either propagates the refresh error or
proceeds to the resource request with a non-null token. -/
theorem noAccessTokenBranch_unreachable (st st2 : ClientState)
    (now now2 : Int) (resp tokenResp r1 r2 r3 r4 r5 r6 : FetchResult)
    (q : DeviceListQueryParams) (deviceId locationId : String)
    (h : (updateToken st now resp).2.2 = Except.ok ()) :
    ((updateToken st now resp).2.1.accessToken).isSome = true
    ∧ (getDeviceList st2 now2 tokenResp r1 q).result
        ≠ Except.error { message := "No access token" }
    ∧ (getDevice st2 now2 tokenResp r2 deviceId).result
        ≠ Except.error { message := "No access token" }
    ∧ (getDeviceSamples st2 now2 tokenResp r3 deviceId).result
        ≠ Except.error { message := "No access token" }
    ∧ (getLocations st2 now2 tokenResp r4).result
        ≠ Except.error { message := "No access token" }
    ∧ (getLocation st2 now2 tokenResp r5 locationId).result
        ≠ Except.error { message := "No access token" }
    ∧ (getLocationSamples st2 now2 tokenResp r6 locationId).result
        ≠ Except.error { message := "No access token" } := by
  refine ⟨updateToken_ok_isSome st now resp h, ?_, ?_, ?_, ?_, ?_, ?_⟩
  · exact projectField_noToken _ _
      (runGet_noToken_unreachable st2 now2 tokenResp (deviceListUrl q) r1)
  · exact runGet_noToken_unreachable st2 now2 tokenResp
      (deviceUrl deviceId) r2
  · exact runGet_noToken_unreachable st2 now2 tokenResp
      (deviceSamplesUrl deviceId) r3
  · exact projectField_noToken _ _
      (runGet_noToken_unreachable st2 now2 tokenResp locationsUrl r4)
  · exact runGet_noToken_unreachable st2 now2 tokenResp
      (locationUrl locationId) r5
  · exact runGet_noToken_unreachable st2 now2 tokenResp
      (locationSamplesUrl locationId) r6

/-- Witness for C9: a successful refresh at a concrete input leaves a
non-null cached token. -/
theorem noAccessTokenBranch_unreachable_witness :
    ((updateToken (mkAirThingsApi { id := "i", secret := "s" }) 0
        (FetchResult.resolve { status := 200, bodyJson := some (Json.obj
          [("access_token", Json.str "abc"),
           ("token_type", Json.str "Bearer"),
           ("expires_in", Json.num 3600)]) })).2.1.accessToken).isSome
      = true :=
  (noAccessTokenBranch_unreachable
    (mkAirThingsApi { id := "i", secret := "s" })
    (mkAirThingsApi { id := "i", secret := "s" }) 0 0
    (FetchResult.resolve { status := 200, bodyJson := some (Json.obj
      [("access_token", Json.str "abc"),
       ("token_type", Json.str "Bearer"),
       ("expires_in", Json.num 3600)]) })
    (FetchResult.reject "token endpoint down")
    (FetchResult.reject "resource endpoint down")
    (FetchResult.reject "resource endpoint down")
    (FetchResult.reject "resource endpoint down")
    (FetchResult.reject "resource endpoint down")
    (FetchResult.reject "resource endpoint down")
    (FetchResult.reject "resource endpoint down")
    defaultDeviceListQueryParams "x" "loc" rfl).1
